import Mathlib

/-
  Verification development for the mongo_chat_llm repository.

  The repository is a Flask chat service (src/apk.py) backed by MongoDB and
  OpenAI, plus a batch embedding-synchronization job (src/get_embeddings.py)
  and a vector-search helper (src/mongoembedding.py, src/app.py).

  External collaborators (MongoDB, the OpenAI embedding and completion
  endpoints, the wall clock) are modelled as explicit parameters: fallible
  remote calls are `Except`-valued oracles, the document store is explicit
  state threaded through each operation, and timestamps are passed in.
  Every definition below is translated from the Python source, including
  Python-specific semantics (the `xs[-limit:]` slice, pandas turning an
  absent field into NaN while a BSON null stays `None`, the unconditional
  `update_one` write loop).
-/

namespace MongoChatLLM

/-- Embedding vectors: fixed-length numeric vectors returned by the remote
embedding model.  Their numeric content is never inspected by the code under
verification, so components are modelled as integers. -/
abbrev Emb := List Int

/-- Errors raised by external calls or by the Python runtime:
`upstream` models a failing remote call (OpenAI, MongoDB), `keyError` models
a Python `KeyError` (raised by `row['embedding']` when a pandas DataFrame
has no `embedding` column). -/
inductive Err
  | upstream (msg : String)
  | keyError (key : String)
deriving DecidableEq

/-- One conversation entry, as stored by `save_message_to_mongo`:
`{"req": user_content, "res": ai_content, "timestamp": utcnow()}`. -/
structure ChatMessage where
  req : String
  res : String
  timestamp : Nat
deriving DecidableEq

/-- The per-email document of the `chat_history` collection.  The Python
code reads `record.get("history", {}).get(session_id, {}).get("chat", [])`,
i.e. every missing level defaults to empty, so the nested structure is
modelled as a total function from session id to chat list (default `[]`). -/
structure IdentityRecord where
  history : String → List ChatMessage

/-- The `chat_history` collection: at most one document per email
(`find_one({"email": email})`); `none` means no document exists. -/
abbrev ChatStore := String → Option IdentityRecord

/-- A freshly upserted identity document, before any push. -/
def emptyIdentityRecord : IdentityRecord := ⟨fun _ => []⟩

/-- The chat list stored for `(email, session_id)`, with the same defaults
as the Python read path (missing document or missing path gives `[]`). -/
def histOf (store : ChatStore) (email session_id : String) : List ChatMessage :=
  match store email with
  | some r => r.history session_id
  | none => []

/-- `save_message_to_mongo` (src/apk.py lines 37-52): a single
`update_one({"email": email}, {"$push": {"history.<sid>.chat": message}},
upsert=True)`.  If no document exists for the email one is created; the
message is appended to that session's chat array; all other sessions and
all other emails are untouched. -/
def save_message_to_mongo (session_id user_content ai_content email : String)
    (timestamp : Nat) (collection : ChatStore) : ChatStore :=
  fun e =>
    if e = email then
      let r := (collection email).getD emptyIdentityRecord
      some ⟨fun s =>
        if s = session_id then
          r.history s ++ [⟨user_content, ai_content, timestamp⟩]
        else r.history s⟩
    else collection e

/-- Python list slice `xs[-limit:]` for an arbitrary integer `limit`
(CPython semantics: a negative start index counts from the end and clamps
at 0; a non-negative start index clamps at `len(xs)`; note `-0 = 0`, so
`limit = 0` yields the whole list). -/
def pyTailSlice (limit : Int) (xs : List α) : List α :=
  let n : Int := xs.length
  let s : Int := -limit
  let start : Int := if s < 0 then max (n + s) 0 else min s n
  xs.drop start.toNat

/-- `fetch_chat_history` (src/apk.py lines 54-64): `find_one` by email;
on a hit, return `session_chat[-limit:]`; on a miss, return `[]`.
The Python default for `limit` is 10 (callers in this model pass it
explicitly). -/
def fetch_chat_history (store : ChatStore) (email session_id : String)
    (limit : Int) : List ChatMessage :=
  match store email with
  | some record => pyTailSlice limit (record.history session_id)
  | none => []

/-- The `embedding` attribute of a stored document: absent, BSON null,
a NaN double (what `update_one` stores after `$set`-ting a pandas NaN),
or an actual vector. -/
inductive EmbAttr
  | absent
  | null
  | nanNum
  | val (e : Emb)
deriving DecidableEq

/-- A document of an embeddable collection (e.g. "properties"): `_id`,
an optional `text` field, and the optional `embedding` attribute.  The
other arbitrary domain fields of a record are subsumed by `text`. -/
structure PropDoc where
  id : Nat
  text : Option String
  emb : EmbAttr
deriving DecidableEq

/-- Result shape of the retrieval pipeline after
`$project: {_id: 1, text: 1}` — only the identifier and text fields. -/
structure SearchResult where
  id : Nat
  text : Option String
deriving DecidableEq

/-- The `$project {_id: 1, text: 1}` stage applied to one document. -/
def projectIdText (d : PropDoc) : SearchResult := ⟨d.id, d.text⟩

/-- Whether a document carries an actual embedding vector (documents
without one are not in the vector index and are never returned by
`$vectorSearch`). -/
def hasEmbVal (d : PropDoc) : Bool :=
  match d.emb with
  | .val _ => true
  | _ => false

/-- The embedding vector of a document, defaulting to `[]` (only used on
documents satisfying `hasEmbVal`). -/
def embValOrNil (d : PropDoc) : Emb :=
  match d.emb with
  | .val e => e
  | _ => []

/-- Ordering used by `$vectorSearch`: `a` before `b` when `a` is at least
as similar to the query vector as `b` (descending similarity, closest
first).  The similarity metric itself belongs to the external vector
index and is a parameter. -/
def simGe (sim : Emb → Emb → Int) (qv : Emb) (a b : PropDoc) : Prop :=
  sim qv (embValOrNil b) ≤ sim qv (embValOrNil a)

instance (sim : Emb → Emb → Int) (qv : Emb) : DecidableRel (simGe sim qv) :=
  fun _ _ => by unfold simGe; infer_instance

instance (sim : Emb → Emb → Int) (qv : Emb) : IsTotal PropDoc (simGe sim qv) :=
  ⟨fun x y => Int.le_total (sim qv (embValOrNil y)) (sim qv (embValOrNil x))⟩

instance (sim : Emb → Emb → Int) (qv : Emb) : IsTrans PropDoc (simGe sim qv) :=
  ⟨fun _ _ _ hab hbc => le_trans hbc hab⟩

/-- The `$vectorSearch` stage with `exact: true` (src/apk.py lines 73-82):
rank the indexed documents by similarity to the query vector, descending,
and keep the top `limit`. -/
def vectorSearchExact (sim : Emb → Emb → Int) (qv : Emb) (limit : Nat)
    (docs : List PropDoc) : List PropDoc :=
  ((docs.filter hasEmbVal).insertionSort (simGe sim qv)).take limit

/-- External collaborators of the chat service:
`sim` and `props` model the state of the vector-indexed collection inside
MongoDB; `embed` is `embedding_handler.generate_embedding` (the remote
OpenAI embeddings call of src/mongoembedding.py); `searchFail` is the
availability of the vector index (`some e` makes `aggregate` raise `e`);
`complete` is `client.chat.completions.create` applied to
(system prompt, user message). -/
structure Env where
  sim : Emb → Emb → Int
  props : List PropDoc
  embed : String → Except Err Emb
  searchFail : Option Err
  complete : String → String → Except Err String

/-- `get_query_results` (src/apk.py lines 66-92): embed the user input,
then run the `$vectorSearch` + `$project` pipeline.  Either remote call
may fail and the failure propagates.  The Python default for `limit`
is 5 (the one caller, `generate_answer`, uses the default). -/
def get_query_results (env : Env) (user_input : String) (limit : Nat) :
    Except Err (List SearchResult) :=
  match env.embed user_input with
  | .error e => .error e
  | .ok query_embedding =>
    match env.searchFail with
    | some e => .error e
    | none =>
      .ok ((vectorSearchExact env.sim query_embedding limit env.props).map projectIdText)

/-- The memory-context rendering of `generate_answer`:
`"\n".join(f"User: {msg['req']}\nAssistant: {msg['res']}" for msg in history)`. -/
def memoryContext (chat_history : List ChatMessage) : String :=
  String.intercalate "\n"
    (chat_history.map fun msg => "User: " ++ msg.req ++ "\nAssistant: " ++ msg.res)

/-- Python `str()` of one projected result dict. -/
def searchResultStr (r : SearchResult) : String :=
  "\x7b" ++ "_id: " ++ toString r.id ++ ", text: " ++
    (match r.text with
     | some t => t
     | none => "None") ++ "\x7d"

/-- Python `str()` of the list of projected results. -/
def propertyContextStr (rs : List SearchResult) : String :=
  "[" ++ String.intercalate ", " (rs.map searchResultStr) ++ "]"

/-- The system prompt f-string of `generate_answer` (src/apk.py lines
110-133), with the memory context and property context interpolated. -/
def promptOf (memory_context : String) (property_context : List SearchResult) : String :=
  "Given the following memory context:\n" ++ memory_context ++ "\n\n" ++
  "    And the following property context: " ++ propertyContextStr property_context ++ "\n" ++
  "    You are a Property Recommender chatbot, a professional yet friendly AI assistant:\n\n" ++
  "    **Mission:** Guide the user with property-related inquiries. " ++
  "If interested in buying, ask about location, budget, and property type.\n" ++
  "    **Tone:** Friendly and professional, like JARVIS from Iron Man.\n\n" ++
  "    **Response Rules:**\n" ++
  "    1. You have all the customer search history in the search history " ++
  "you will ananyse based on his search histoy what kind of property he is interested in.\n" ++
  "    2. When you start chatting, you will ask multiple questions to user (maximum 6)\n" ++
  "    Example Interactions:\n    User: \"Hello\"\n    Assistant: Hello, how can I assist you?\n"

/-- `generate_answer` (src/apk.py lines 94-148).  The store is threaded
explicitly: the single write (`save_message_to_mongo`) happens after the
retrieval pipeline and the completion call have both succeeded, so on any
error the store comes back unchanged together with the raised error. -/
def generate_answer (env : Env) (timestamp : Nat) (store : ChatStore)
    (user_input email session_id : String) : Except Err String × ChatStore :=
  let chat_history := fetch_chat_history store email session_id 10
  let memory_context := memoryContext chat_history
  match get_query_results env user_input 5 with
  | .error e => (.error e, store)
  | .ok property_context =>
    match env.complete (promptOf memory_context property_context) user_input with
    | .error e => (.error e, store)
    | .ok assistant_response =>
      (.ok assistant_response,
       save_message_to_mongo session_id user_input assistant_response email timestamp store)

/-- The parsed JSON body of a `POST /chat` request: `data.get(key)` gives
`none` when the key is missing. -/
structure ChatRequest where
  session_id : Option String
  email : Option String
  question : Option String

/-- Python truthiness test `not x` for `x = data.get(key)`: true when the
key is missing or its value is the empty string. -/
def pyFalsy : Option String → Bool
  | none => true
  | some s => s = ""

/-- JSON body of a `/chat` reply: `{"response": ...}` on success,
`{"error": ...}` on validation failure, or the generic server error page
Flask produces for an unhandled exception. -/
inductive ChatBody
  | response (s : String)
  | error (s : String)
  | internal (e : Err)
deriving DecidableEq

/-- An HTTP reply: status code and JSON body. -/
structure HttpReply where
  status : Nat
  body : ChatBody
deriving DecidableEq

/-- The validation error message of the `/chat` route. -/
def missingFieldsMsg : String := "session_id, email, and question are required fields."

/-- The `/chat` route handler (src/apk.py lines 154-173): reject with 400
if any of the three fields is missing or falsy; otherwise run
`generate_answer` and wrap its result (200 on success; an unhandled
exception surfaces as Flask's 500). -/
def chat (env : Env) (timestamp : Nat) (store : ChatStore) (data : ChatRequest) :
    HttpReply × ChatStore :=
  if pyFalsy data.session_id || pyFalsy data.email || pyFalsy data.question then
    (⟨400, .error missingFieldsMsg⟩, store)
  else
    let sid := data.session_id.getD ""
    let email := data.email.getD ""
    let question := data.question.getD ""
    match generate_answer env timestamp store question email sid with
    | (.ok response, store2) => (⟨200, .response response⟩, store2)
    | (.error e, store2) => (⟨500, .internal e⟩, store2)

/-! Embedding synchronization job (src/get_embeddings.py). -/

/-- Value of the `embedding` cell of a pandas DataFrame row after
`load_data` (`pd.DataFrame(list(collection.find()))`): a document missing
the field gets NaN, a BSON null stays Python `None`, a stored vector stays
a list, and a stored NaN double stays NaN. -/
inductive PdCell
  | nan
  | null
  | vec (e : Emb)
deriving DecidableEq

/-- The `embedding` cell a document contributes to the DataFrame. -/
def cellOf (d : PropDoc) : PdCell :=
  match d.emb with
  | .absent => .nan
  | .null => .null
  | .nanNum => .nan
  | .val e => .vec e

/-- Whether the DataFrame has an `embedding` column at all: pandas creates
a column for the union of the document keys, so the column exists exactly
when some document carries the field (with any value). -/
def hasEmbColumn (docs : List PropDoc) : Bool :=
  docs.any fun d => !(d.emb == EmbAttr.absent)

/-- Python `str()` of an `embedding` cell. -/
def cellStr : PdCell → String
  | .nan => "nan"
  | .null => "None"
  | .vec e => toString e

/-- Python `str()` of an optional text cell (a missing field is NaN). -/
def textFieldStr : Option String → String
  | none => "nan"
  | some s => s

/-- The text embedded for one row: `' '.join(map(str, row.values))` over
the row's cells (identifier, domain fields, current embedding cell). -/
def rowText (d : PropDoc) : String :=
  String.intercalate " " [toString d.id, textFieldStr d.text, cellStr (cellOf d)]

/-- The `df.apply(..., axis=1)` phase of `generate_and_save_embeddings`
(src/get_embeddings.py lines 35-39): walk the rows in order; a row whose
embedding cell `is None` gets `generate_embedding(' '.join(...))`, every
other row keeps its cell (in particular a NaN cell stays NaN).  The first
generator failure aborts the whole phase.  Returns the new cells together
with the number of generator invocations. -/
def applyCells (gen : String → Except Err Emb) :
    List PropDoc → Except Err (List PdCell × Nat)
  | [] => .ok ([], 0)
  | d :: ds =>
    match cellOf d with
    | .null =>
      match gen (rowText d) with
      | .error e => .error e
      | .ok v =>
        match applyCells gen ds with
        | .error e => .error e
        | .ok (cs, n) => .ok (.vec v :: cs, n + 1)
    | c =>
      match applyCells gen ds with
      | .error e => .error e
      | .ok (cs, n) => .ok (c :: cs, n)

/-- What `update_one({'_id': ...}, {"$set": {"embedding": cell}})` stores
for each possible cell value: a NaN cell is stored as a NaN double, `None`
as BSON null, a list as the vector. -/
def storedOf : PdCell → EmbAttr
  | .nan => .nanNum
  | .null => .null
  | .vec e => .val e

/-- One `update_one` by `_id`: set the `embedding` attribute of the first
matching document. -/
def setEmbedding (id : Nat) (c : PdCell) : List PropDoc → List PropDoc
  | [] => []
  | d :: ds =>
    if d.id = id then ⟨d.id, d.text, storedOf c⟩ :: ds
    else d :: setEmbedding id c ds

/-- The write loop of `generate_and_save_embeddings` (lines 42-43): one
unconditional `update_one` per DataFrame row, in row order. -/
def writeBack (rows : List (PropDoc × PdCell)) (st : List PropDoc) : List PropDoc :=
  rows.foldl (fun acc rc => setEmbedding rc.1.id rc.2 acc) st

/-- Message returned for an empty collection. -/
def noDocsMsg : String := "No documents found in the collection."

/-- Message returned on success. -/
def successMsg : String := "Embeddings generated and saved successfully where needed."

/-- Outcome of one synchronization run: the returned message, the final
collection state, the number of `update_one` write operations issued, and
the number of embedding-generator invocations. -/
structure SyncResult where
  msg : String
  docs : List PropDoc
  writes : Nat
  genCalls : Nat
deriving DecidableEq

/-- `generate_and_save_embeddings` (src/get_embeddings.py lines 27-45),
with the collection state passed explicitly and the embedding generator
(`openai.Embedding.create`) as an oracle.  An empty DataFrame returns the
no-documents message before touching anything.  Otherwise, if no document
has an `embedding` key the DataFrame has no such column and
`row['embedding']` raises `KeyError`.  Otherwise the apply phase computes
the new cells (possibly aborting on a generator failure) and the write
loop then issues one `update_one` per row. -/
def generate_and_save_embeddings (gen : String → Except Err Emb)
    (docs : List PropDoc) : Except Err SyncResult :=
  if docs.isEmpty then .ok ⟨noDocsMsg, docs, 0, 0⟩
  else if hasEmbColumn docs then
    match applyCells gen docs with
    | .error e => .error e
    | .ok (cells, genCalls) =>
      .ok ⟨successMsg, writeBack (docs.zip cells) docs, docs.length, genCalls⟩
  else .error (.keyError "embedding")

/-- The cell the apply phase produces for one row, given the value `gv d`
the generator returns for the rows it is invoked on: a `None` cell is
replaced by the generated vector, every other cell is kept. -/
def newCellOf (gv : PropDoc → Emb) (d : PropDoc) : PdCell :=
  match cellOf d with
  | .null => .vec (gv d)
  | c => c

/-- Number of rows whose embedding cell `is None` — exactly the rows on
which the apply phase invokes the embedding generator. -/
def countNull (docs : List PropDoc) : Nat :=
  docs.countP fun d => cellOf d == PdCell.null

/-! Concrete fixtures used by witnesses and counterexamples. -/

/-- A store holding one identity with one session containing one message. -/
def cstore : ChatStore :=
  fun e =>
    if e = "a@b.com" then
      some ⟨fun s => if s = "s1" then [⟨"hi", "hello", 0⟩] else []⟩
    else none

/-- A store with no identity documents at all. -/
def emptyStore : ChatStore := fun _ => none

/-- An environment whose remote calls all succeed. -/
def env0 : Env :=
  ⟨fun _ _ => 0, [], fun _ => .ok [1], none, fun _ _ => .ok "Hi there"⟩

/-- An environment whose embedding endpoint is down. -/
def envDown : Env :=
  ⟨fun _ _ => 0, [], fun _ => .error (.upstream "embeddings api down"), none,
   fun _ _ => .ok "unreachable"⟩

/-- An environment with a two-document indexed collection; similarity is
the head component of the stored vector. -/
def env1 : Env :=
  ⟨fun _ e => e.headD 0,
   [⟨1, some "flat in Indore", .val [3]⟩, ⟨2, some "villa", .val [7]⟩],
   fun _ => .ok [0], none, fun _ _ => .ok "ok"⟩

/-- A request body with `session_id` missing. -/
def chatReqMissing : ChatRequest := ⟨none, some "a@b.com", some "Hello"⟩

/-- An embedding generator that fails on every input. -/
def genFail : String → Except Err Emb := fun _ => .error (.upstream "embedding api down")

/-- An embedding generator that succeeds on every input. -/
def genOk : String → Except Err Emb := fun _ => .ok [9]

/-- A document that already carries an embedding. -/
def docVal : PropDoc := ⟨0, some "villa", .val [1, 2]⟩

/-- A document whose `embedding` field is absent. -/
def docAbsent : PropDoc := ⟨0, some "plot", .absent⟩

/-- A second document that already carries an embedding. -/
def docVal5 : PropDoc := ⟨1, some "flat", .val [5]⟩

/-- A document whose `embedding` field is BSON null. -/
def docNull : PropDoc := ⟨0, some "bungalow", .null⟩

/-! Theorems. -/

/-- Appending via `save_message_to_mongo` extends exactly the target
session's chat list by the new message. -/
theorem histOf_save_same (session_id user_content ai_content email : String)
    (ts : Nat) (store : ChatStore) :
    histOf (save_message_to_mongo session_id user_content ai_content email ts store)
        email session_id =
      histOf store email session_id ++ [⟨user_content, ai_content, ts⟩] := by
  unfold histOf save_message_to_mongo
  cases h : store email with
  | none => simp [h, emptyIdentityRecord]
  | some r => simp [h]

/-- `save_message_to_mongo` leaves every other (email, session) history
unchanged. -/
theorem histOf_save_other (session_id user_content ai_content email : String)
    (ts : Nat) (store : ChatStore) (e s : String)
    (h : e ≠ email ∨ s ≠ session_id) :
    histOf (save_message_to_mongo session_id user_content ai_content email ts store) e s =
      histOf store e s := by
  unfold histOf save_message_to_mongo
  by_cases he : e = email
  · subst he
    have hs : s ≠ session_id := h.resolve_left (fun hne => hne rfl)
    cases hst : store e with
    | none => simp [hst, emptyIdentityRecord, hs]
    | some r => simp [hst, hs]
  · simp [he]

/-- Claim C2: a `POST /chat` request missing any of `session_id`, `email`,
`question` gets HTTP 400 with the error body, and the history store is
unchanged. -/
theorem chat_missing_field_400 (env : Env) (ts : Nat) (store : ChatStore)
    (data : ChatRequest)
    (h : data.session_id = none ∨ data.email = none ∨ data.question = none) :
    (chat env ts store data).1 = ⟨400, ChatBody.error missingFieldsMsg⟩ ∧
    (chat env ts store data).2 = store := by
  have hc : (pyFalsy data.session_id || pyFalsy data.email || pyFalsy data.question) = true := by
    rcases h with h | h | h <;> simp [h, pyFalsy]
  constructor <;> simp [chat, hc]

/-- Witness for C2 at a concrete request with `session_id` missing. -/
theorem chat_missing_field_400_witness :
    (chatReqMissing.session_id = none ∨ chatReqMissing.email = none ∨
      chatReqMissing.question = none) ∧
    ((chat env0 0 emptyStore chatReqMissing).1 = ⟨400, ChatBody.error missingFieldsMsg⟩ ∧
     (chat env0 0 emptyStore chatReqMissing).2 = emptyStore) :=
  ⟨Or.inl rfl, chat_missing_field_400 env0 0 emptyStore chatReqMissing (Or.inl rfl)⟩

/-- Claim C8: `fetch_chat_history` for an email with no identity document
returns `[]`, for every session id and limit. -/
theorem fetch_chat_history_unknown_email (store : ChatStore) (email : String)
    (h : store email = none) (session_id : String) (limit : Int) :
    fetch_chat_history store email session_id limit = [] := by
  unfold fetch_chat_history
  rw [h]

/-- Witness for C8 on the empty store. -/
theorem fetch_chat_history_unknown_email_witness :
    emptyStore "nobody@example.com" = none ∧
    fetch_chat_history emptyStore "nobody@example.com" "s1" 7 = [] :=
  ⟨rfl, fetch_chat_history_unknown_email emptyStore "nobody@example.com" rfl "s1" 7⟩

/-- Counterexample to claim C3 as stated: with `limit = 0` the Python slice
`session_chat[-0:]` is `session_chat[0:]`, the whole list, so a session
with one stored message returns 1 > 0 entries. -/
theorem fetch_chat_history_limit_zero_counterexample :
    ¬ (((fetch_chat_history cstore "a@b.com" "s1" 0).length : Int) ≤ 0) := by
  decide

/-- Python tail slice for a positive limit is `List.drop` of all but the
last `limit` elements. -/
theorem pyTailSlice_pos (limit : Int) (h : 1 ≤ limit) (xs : List α) :
    pyTailSlice limit xs = xs.drop (xs.length - limit.toNat) := by
  have h1 : -limit < 0 := by omega
  simp only [pyTailSlice]
  rw [if_pos h1]
  congr 1
  omega

/-- Claim C3 (amended): for every email, session id and positive limit,
`fetch_chat_history` returns at most `limit` entries, namely the suffix of
the stored chat list with all but the most recent `limit` entries dropped
(so the returned slice keeps its original chronological order). -/
theorem fetch_chat_history_pos_limit (store : ChatStore) (email session_id : String)
    (limit : Int) (h : 1 ≤ limit) :
    ((fetch_chat_history store email session_id limit).length : Int) ≤ limit ∧
    fetch_chat_history store email session_id limit =
      (histOf store email session_id).drop
        ((histOf store email session_id).length - limit.toNat) := by
  unfold fetch_chat_history histOf
  cases hst : store email with
  | none => exact ⟨by simp; omega, by simp⟩
  | some r =>
    dsimp only
    rw [pyTailSlice_pos limit h]
    refine ⟨?_, rfl⟩
    rw [List.length_drop]
    omega

/-- Witness for the amended C3 at `limit = 1` on a store with one message. -/
theorem fetch_chat_history_pos_limit_witness :
    (1 : Int) ≤ 1 ∧
    (((fetch_chat_history cstore "a@b.com" "s1" 1).length : Int) ≤ 1 ∧
     fetch_chat_history cstore "a@b.com" "s1" 1 =
       (histOf cstore "a@b.com" "s1").drop
         ((histOf cstore "a@b.com" "s1").length - (1 : Int).toNat)) :=
  ⟨by decide, fetch_chat_history_pos_limit cstore "a@b.com" "s1" 1 (by decide)⟩

/-- Claim C7: synchronizing an empty collection returns the no-documents
message with zero writes and zero generator invocations. -/
theorem embed_sync_empty_collection (gen : String → Except Err Emb) :
    generate_and_save_embeddings gen [] = .ok ⟨noDocsMsg, [], 0, 0⟩ := rfl

/-- Claim C1: for a valid `/chat` request (all three fields present and
non-empty) in which the external calls succeed and the completion model
returns a non-empty string, the handler replies 200 with that string, and
exactly one new `{req, res, timestamp}` entry is appended to the
(email, session_id) history; every other (email, session) history is
unchanged. -/
theorem chat_valid_request_ok (env : Env) (ts : Nat) (store : ChatStore)
    (sid email q ans : String) (qv : Emb)
    (hs : sid ≠ "") (he : email ≠ "") (hq : q ≠ "")
    (hEmb : env.embed q = .ok qv)
    (hSearch : env.searchFail = none)
    (hLLM : env.complete
        (promptOf (memoryContext (fetch_chat_history store email sid 10))
          ((vectorSearchExact env.sim qv 5 env.props).map projectIdText)) q = .ok ans)
    (hAns : ans ≠ "") :
    (chat env ts store ⟨some sid, some email, some q⟩).1 = ⟨200, ChatBody.response ans⟩ ∧
    ans ≠ "" ∧
    histOf (chat env ts store ⟨some sid, some email, some q⟩).2 email sid =
      histOf store email sid ++ [⟨q, ans, ts⟩] ∧
    (∀ e s, e ≠ email ∨ s ≠ sid →
      histOf (chat env ts store ⟨some sid, some email, some q⟩).2 e s =
        histOf store e s) := by
  have hga : generate_answer env ts store q email sid =
      (.ok ans, save_message_to_mongo sid q ans email ts store) := by
    simp only [generate_answer, get_query_results, hEmb, hSearch, hLLM]
  have hchat : chat env ts store ⟨some sid, some email, some q⟩ =
      (⟨200, ChatBody.response ans⟩, save_message_to_mongo sid q ans email ts store) := by
    simp [chat, pyFalsy, hs, he, hq, hga]
  rw [hchat]
  exact ⟨rfl, hAns, histOf_save_same sid q ans email ts store,
    fun e s h' => histOf_save_other sid q ans email ts store e s h'⟩

/-- Witness for C1 on a concrete request against the all-success
environment and the empty store. -/
theorem chat_valid_request_ok_witness :
    ("s1" : String) ≠ "" ∧ ("a@b.com" : String) ≠ "" ∧ ("Hello" : String) ≠ "" ∧
    env0.embed "Hello" = .ok [1] ∧ env0.searchFail = none ∧
    ("Hi there" : String) ≠ "" ∧
    ((chat env0 0 emptyStore ⟨some "s1", some "a@b.com", some "Hello"⟩).1 =
        ⟨200, ChatBody.response "Hi there"⟩ ∧
      ("Hi there" : String) ≠ "" ∧
      histOf (chat env0 0 emptyStore ⟨some "s1", some "a@b.com", some "Hello"⟩).2
          "a@b.com" "s1" =
        histOf emptyStore "a@b.com" "s1" ++ [⟨"Hello", "Hi there", 0⟩] ∧
      (∀ e s, e ≠ "a@b.com" ∨ s ≠ "s1" →
        histOf (chat env0 0 emptyStore ⟨some "s1", some "a@b.com", some "Hello"⟩).2 e s =
          histOf emptyStore e s)) :=
  ⟨by decide, by decide, by decide, rfl, rfl, by decide,
   chat_valid_request_ok env0 0 emptyStore "s1" "a@b.com" "Hello" "Hi there" [1]
     (by decide) (by decide) (by decide) rfl rfl rfl (by decide)⟩

/-- Claim C10: if the embedding call, the vector search, or the completion
call fails, `generate_answer` propagates the error and the history store
comes back unchanged (the append happens only after both remote reads and
the completion succeed). -/
theorem generate_answer_error_no_write (env : Env) (ts : Nat) (store : ChatStore)
    (user_input email session_id : String)
    (h : (∃ e, env.embed user_input = .error e) ∨
         (∃ e, env.searchFail = some e) ∨
         (∀ p, ∃ e, env.complete p user_input = .error e)) :
    (∃ e, (generate_answer env ts store user_input email session_id).1 = .error e) ∧
    (generate_answer env ts store user_input email session_id).2 = store := by
  rcases h with ⟨e, he⟩ | ⟨e, he⟩ | hc
  · simp only [generate_answer, get_query_results, he]
    exact ⟨⟨e, rfl⟩, trivial⟩
  · cases hemb : env.embed user_input with
    | error e2 =>
      simp only [generate_answer, get_query_results, hemb]
      exact ⟨⟨e2, rfl⟩, trivial⟩
    | ok qv =>
      simp only [generate_answer, get_query_results, hemb, he]
      exact ⟨⟨e, rfl⟩, trivial⟩
  · cases hemb : env.embed user_input with
    | error e2 =>
      simp only [generate_answer, get_query_results, hemb]
      exact ⟨⟨e2, rfl⟩, trivial⟩
    | ok qv =>
      cases hsf : env.searchFail with
      | some e2 =>
        simp only [generate_answer, get_query_results, hemb, hsf]
        exact ⟨⟨e2, rfl⟩, trivial⟩
      | none =>
        obtain ⟨e2, he2⟩ := hc
          (promptOf (memoryContext (fetch_chat_history store email session_id 10))
            ((vectorSearchExact env.sim qv 5 env.props).map projectIdText))
        simp only [generate_answer, get_query_results, hemb, hsf, he2]
        exact ⟨⟨e2, rfl⟩, trivial⟩

/-- Witness for C10: with the embedding endpoint down, the call errors and
the store is unchanged. -/
theorem generate_answer_error_no_write_witness :
    (∃ e, envDown.embed "Hello" = .error e) ∧
    ((∃ e, (generate_answer envDown 0 cstore "Hello" "a@b.com" "s1").1 = .error e) ∧
     (generate_answer envDown 0 cstore "Hello" "a@b.com" "s1").2 = cstore) :=
  ⟨⟨.upstream "embeddings api down", rfl⟩,
   generate_answer_error_no_write envDown 0 cstore "Hello" "a@b.com" "s1"
     (Or.inl ⟨.upstream "embeddings api down", rfl⟩)⟩

/-- Claim C6: when the embedding call succeeds and the index is available,
the retrieval query returns the `$project`-ion (only `_id` and `text`) of
at most `limit` indexed documents, ordered by non-increasing similarity to
the query embedding. -/
theorem get_query_results_spec (env : Env) (user_input : String) (limit : Nat)
    (qv : Emb)
    (hEmb : env.embed user_input = .ok qv) (hSearch : env.searchFail = none) :
    ∃ ds : List PropDoc,
      get_query_results env user_input limit = .ok (ds.map projectIdText) ∧
      ds.length ≤ limit ∧
      List.Sorted (simGe env.sim qv) ds ∧
      ∀ d ∈ ds, d ∈ env.props ∧ hasEmbVal d = true := by
  refine ⟨vectorSearchExact env.sim qv limit env.props, ?_, ?_, ?_, ?_⟩
  · simp only [get_query_results, hEmb, hSearch]
  · exact List.length_take_le limit _
  · exact (List.sorted_insertionSort (simGe env.sim qv) _).sublist
      (List.take_sublist _ _)
  · intro d hd
    have hd2 := List.mem_of_mem_take hd
    have hd3 := (List.mem_insertionSort (simGe env.sim qv)).mp hd2
    exact List.mem_filter.mp hd3

/-- Witness for C6 on the two-document environment at the default limit 5. -/
theorem get_query_results_spec_witness :
    env1.embed "any 2BHK in Indore" = .ok [0] ∧ env1.searchFail = none ∧
    (∃ ds : List PropDoc,
      get_query_results env1 "any 2BHK in Indore" 5 = .ok (ds.map projectIdText) ∧
      ds.length ≤ 5 ∧
      List.Sorted (simGe env1.sim [0]) ds ∧
      ∀ d ∈ ds, d ∈ env1.props ∧ hasEmbVal d = true) :=
  ⟨rfl, rfl, get_query_results_spec env1 "any 2BHK in Indore" 5 [0] rfl rfl⟩

/-- The apply phase on a list of rows whose generator calls all succeed:
every `None` cell becomes the generated vector, all other cells are kept,
and the generator is invoked exactly once per `None` cell. -/
theorem applyCells_ok (gen : String → Except Err Emb) (gv : PropDoc → Emb)
    (docs : List PropDoc)
    (hgen : ∀ d ∈ docs, cellOf d = .null → gen (rowText d) = .ok (gv d)) :
    applyCells gen docs = .ok (docs.map (newCellOf gv), countNull docs) := by
  induction docs with
  | nil => rfl
  | cons d ds ih =>
    have hds : ∀ d' ∈ ds, cellOf d' = .null → gen (rowText d') = .ok (gv d') :=
      fun d' hd' => hgen d' (List.mem_cons_of_mem _ hd')
    have ihds := ih hds
    cases hc : cellOf d with
    | null =>
      have hg := hgen d (List.mem_cons_self _ _) hc
      simp [applyCells, hc, hg, ihds, newCellOf, countNull, List.countP_cons]
    | nan => simp [applyCells, hc, ihds, newCellOf, countNull, List.countP_cons]
    | vec e => simp [applyCells, hc, ihds, newCellOf, countNull, List.countP_cons]

/-- Unfolding one step of the write loop. -/
theorem writeBack_cons (r : PropDoc × PdCell) (rs : List (PropDoc × PdCell))
    (st : List PropDoc) :
    writeBack (r :: rs) st = writeBack rs (setEmbedding r.1.id r.2 st) := rfl

/-- `update_one` passes over a non-matching head document. -/
theorem setEmbedding_skip (id : Nat) (c : PdCell) (d : PropDoc) (st : List PropDoc)
    (h : d.id ≠ id) : setEmbedding id c (d :: st) = d :: setEmbedding id c st := by
  simp [setEmbedding, h]

/-- The write loop passes over a head document none of the rows target. -/
theorem writeBack_skip_head (rows : List (PropDoc × PdCell)) (d : PropDoc)
    (st : List PropDoc) (h : ∀ r ∈ rows, r.1.id ≠ d.id) :
    writeBack rows (d :: st) = d :: writeBack rows st := by
  induction rows generalizing st with
  | nil => rfl
  | cons r rs ih =>
    rw [writeBack_cons, setEmbedding_skip _ _ d st (Ne.symm (h r (List.mem_cons_self _ _))),
      writeBack_cons]
    exact ih _ (fun r' h' => h r' (List.mem_cons_of_mem _ h'))

/-- With pairwise distinct `_id`s (the MongoDB primary-key invariant), the
write loop stores row `d`'s cell in document `d` and nothing else. -/
theorem writeBack_zip_map (f : PropDoc → PdCell) (docs : List PropDoc)
    (hnodup : (docs.map PropDoc.id).Nodup) :
    writeBack (docs.zip (docs.map f)) docs =
      docs.map (fun d => ⟨d.id, d.text, storedOf (f d)⟩) := by
  induction docs with
  | nil => rfl
  | cons d ds ih =>
    have hnd : d.id ∉ ds.map PropDoc.id := (List.nodup_cons.mp (by simpa using hnodup)).1
    have hnds : (ds.map PropDoc.id).Nodup := (List.nodup_cons.mp (by simpa using hnodup)).2
    rw [List.map_cons, List.zip_cons_cons, writeBack_cons]
    have hset : setEmbedding d.id (f d) (d :: ds) =
        (⟨d.id, d.text, storedOf (f d)⟩ : PropDoc) :: ds := by
      simp [setEmbedding]
    rw [show ((d, f d) : PropDoc × PdCell).1.id = d.id from rfl] at *
    rw [hset]
    rw [writeBack_skip_head _ _ _ ?hids, ih hnds, List.map_cons]
    case hids =>
      intro r hr heq
      have hmem : r.1 ∈ ds := (List.of_mem_zip hr).1
      exact hnd (heq ▸ List.mem_map_of_mem PropDoc.id hmem)

/-- One full successful synchronization run: every `None`-embedding row
gets the generated vector written, every NaN (field-absent) row gets NaN
written, every existing vector is rewritten unchanged; one `update_one`
per row; one generator call per `None` row. -/
theorem embed_sync_run (gen : String → Except Err Emb) (gv : PropDoc → Emb)
    (docs : List PropDoc) (hne : docs ≠ [])
    (hcol : hasEmbColumn docs = true)
    (hgen : ∀ d ∈ docs, cellOf d = .null → gen (rowText d) = .ok (gv d))
    (hnodup : (docs.map PropDoc.id).Nodup) :
    generate_and_save_embeddings gen docs =
      .ok ⟨successMsg, docs.map (fun d => ⟨d.id, d.text, storedOf (newCellOf gv d)⟩),
           docs.length, countNull docs⟩ := by
  have hempty : docs.isEmpty = false := by
    cases docs with
    | nil => exact absurd rfl hne
    | cons d ds => rfl
  have happly := applyCells_ok gen gv docs hgen
  have hwb := writeBack_zip_map (newCellOf gv) docs hnodup
  simp [generate_and_save_embeddings, hempty, hcol, happly, hwb]

/-- Counterexample to claim C4 as stated: on a singleton collection whose
record already carries an embedding, the job still issues one `update_one`
write operation (rewriting the same value), not zero, while reporting the
success message and leaving the record unchanged. -/
theorem embed_sync_zero_writes_counterexample :
    ∃ r, generate_and_save_embeddings genFail [docVal] = .ok r ∧
      r.msg = successMsg ∧ r.docs = [docVal] ∧ r.writes = 1 ∧ r.writes ≠ 0 := by
  refine ⟨⟨successMsg, [docVal], 1, 0⟩, ?_, rfl, rfl, rfl, ?_⟩
  · rfl
  · decide

/-- Claim C4 (amended): synchronizing a non-empty collection in which every
record already carries an embedding invokes the generator zero times,
issues exactly one (value-preserving) `update_one` per record, leaves every
record unchanged, and reports success. -/
theorem embed_sync_all_embedded (gen : String → Except Err Emb)
    (docs : List PropDoc) (hne : docs ≠ [])
    (hall : ∀ d ∈ docs, ∃ e, d.emb = EmbAttr.val e)
    (hnodup : (docs.map PropDoc.id).Nodup) :
    generate_and_save_embeddings gen docs =
      .ok ⟨successMsg, docs, docs.length, 0⟩ := by
  have hcol : hasEmbColumn docs = true := by
    cases docs with
    | nil => exact absurd rfl hne
    | cons d ds =>
      obtain ⟨e, he⟩ := hall d (List.mem_cons_self _ _)
      simp [hasEmbColumn, he]
  have hgen : ∀ d ∈ docs, cellOf d = .null →
      gen (rowText d) = .ok ((fun _ => ([] : Emb)) d) := by
    intro d hd hc
    obtain ⟨e, he⟩ := hall d hd
    simp [cellOf, he] at hc
  have hrun := embed_sync_run gen (fun _ => ([] : Emb)) docs hne hcol hgen hnodup
  rw [hrun]
  have hmap : docs.map
      (fun d => (⟨d.id, d.text, storedOf (newCellOf (fun _ => ([] : Emb)) d)⟩ : PropDoc)) =
      docs := by
    have hcongr : ∀ d ∈ docs,
        (⟨d.id, d.text, storedOf (newCellOf (fun _ => ([] : Emb)) d)⟩ : PropDoc) = d := by
      intro d hd
      obtain ⟨e, he⟩ := hall d hd
      cases d with
      | mk i t em =>
        simp only at he
        subst he
        simp [newCellOf, cellOf, storedOf]
    exact (List.map_congr_left hcongr).trans (List.map_id docs)
  have hcount : countNull docs = 0 := by
    rw [countNull, List.countP_eq_zero]
    intro d hd
    obtain ⟨e, he⟩ := hall d hd
    simp [cellOf, he]
  rw [hmap, hcount]

/-- Witness for the amended C4 on a singleton already-embedded collection
(the generator is even down, showing it is never invoked). -/
theorem embed_sync_all_embedded_witness :
    ([docVal] ≠ ([] : List PropDoc)) ∧
    (∀ d ∈ [docVal], ∃ e, d.emb = EmbAttr.val e) ∧
    (([docVal].map PropDoc.id).Nodup) ∧
    generate_and_save_embeddings genFail [docVal] =
      .ok ⟨successMsg, [docVal], [docVal].length, 0⟩ :=
  ⟨by decide,
   fun d hd => by
     rw [List.mem_singleton.mp hd]
     exact ⟨[1, 2], rfl⟩,
   by decide,
   embed_sync_all_embedded genFail [docVal] (by decide)
     (fun d hd => by
       rw [List.mem_singleton.mp hd]
       exact ⟨[1, 2], rfl⟩)
     (by decide)⟩

/-- Counterexample to claim C5 as stated: on a collection with one
absent-embedding record and one embedded record, the job succeeds without
ever invoking the generator (it is down and `genCalls = 0`), and the
absent-embedding record ends with a NaN double in `embedding`, not a
computed embedding — because pandas renders the absent field as NaN and
the code only computes when the cell `is None`. -/
theorem embed_sync_absent_counterexample :
    ∃ r, generate_and_save_embeddings genFail [docAbsent, docVal5] = .ok r ∧
      r.genCalls = 0 ∧
      r.docs = [⟨0, some "plot", EmbAttr.nanNum⟩, docVal5] := by
  exact ⟨⟨successMsg, [⟨0, some "plot", EmbAttr.nanNum⟩, docVal5], 2, 0⟩, rfl, rfl, rfl⟩

/-- Claim C5 (amended): on a non-empty collection where at least one record
carries the `embedding` attribute, the job computes and writes back an
embedding for exactly those records whose attribute is BSON null (`None`
in the DataFrame); a record whose attribute is absent gets a NaN double
written back without a generator call; a record already carrying an
embedding has its existing value rewritten unchanged; the generator is
invoked exactly once per null record.  If no record carries the attribute
at all, the DataFrame has no `embedding` column, `row['embedding']` raises
`KeyError`, and the job aborts with nothing written. -/
theorem embed_sync_null_only (gen : String → Except Err Emb) (gv : PropDoc → Emb)
    (docs : List PropDoc) (hne : docs ≠ [])
    (hgen : ∀ d ∈ docs, cellOf d = .null → gen (rowText d) = .ok (gv d))
    (hnodup : (docs.map PropDoc.id).Nodup) :
    generate_and_save_embeddings gen docs =
      if hasEmbColumn docs then
        .ok ⟨successMsg, docs.map (fun d => ⟨d.id, d.text, storedOf (newCellOf gv d)⟩),
             docs.length, countNull docs⟩
      else .error (.keyError "embedding") := by
  have hempty : docs.isEmpty = false := by
    cases docs with
    | nil => exact absurd rfl hne
    | cons d ds => rfl
  cases hcol : hasEmbColumn docs with
  | true => simpa using embed_sync_run gen gv docs hne hcol hgen hnodup
  | false => simp [generate_and_save_embeddings, hempty, hcol]

/-- Witness for the amended C5: a null record and an embedded record; the
null record gets the generated vector, the embedded one keeps its value. -/
theorem embed_sync_null_only_witness :
    ([docNull, docVal5] ≠ ([] : List PropDoc)) ∧
    (([docNull, docVal5].map PropDoc.id).Nodup) ∧
    generate_and_save_embeddings genOk [docNull, docVal5] =
      (if hasEmbColumn [docNull, docVal5] then
        .ok ⟨successMsg,
             [docNull, docVal5].map
               (fun d => ⟨d.id, d.text, storedOf (newCellOf (fun _ => ([9] : Emb)) d)⟩),
             [docNull, docVal5].length, countNull [docNull, docVal5]⟩
      else .error (.keyError "embedding")) :=
  ⟨by decide, by decide,
   embed_sync_null_only genOk (fun _ => ([9] : Emb)) [docNull, docVal5]
     (by decide) (fun _ _ _ => rfl) (by decide)⟩

/-- The apply phase aborts with the generator's error at the first row
whose cell is `None` and whose generator call fails. -/
theorem applyCells_first_failure (gen : String → Except Err Emb) (e : Err)
    (d : PropDoc) (post : List PropDoc)
    (hd : cellOf d = .null) (hfail : gen (rowText d) = .error e) :
    ∀ pre : List PropDoc,
      (∀ d' ∈ pre, cellOf d' = .null → ∃ v, gen (rowText d') = .ok v) →
      applyCells gen (pre ++ d :: post) = .error e := by
  intro pre
  induction pre with
  | nil =>
    intro _
    simp [applyCells, hd, hfail]
  | cons p ps ih =>
    intro hpre
    have ihe := ih (fun d' h' => hpre d' (List.mem_cons_of_mem _ h'))
    cases hc : cellOf p with
    | null =>
      obtain ⟨v, hv⟩ := hpre p (List.mem_cons_self _ _) hc
      simp [applyCells, hc, hv, ihe]
    | nan => simp [applyCells, hc, ihe]
    | vec ev => simp [applyCells, hc, ihe]

/-- Claim C9: if the generator fails on some null-embedding record (all
earlier null records succeeding), the whole synchronization job aborts
with that error — nothing is caught, skipped, or retried. -/
theorem embed_sync_generator_failure (gen : String → Except Err Emb) (e : Err)
    (pre : List PropDoc) (d : PropDoc) (post : List PropDoc)
    (hd : cellOf d = .null)
    (hfail : gen (rowText d) = .error e)
    (hpre : ∀ d' ∈ pre, cellOf d' = .null → ∃ v, gen (rowText d') = .ok v) :
    generate_and_save_embeddings gen (pre ++ d :: post) = .error e := by
  have hdemb : d.emb = EmbAttr.null := by
    cases hemb : d.emb
    case null => rfl
    all_goals simp [cellOf, hemb] at hd
  have hcol : hasEmbColumn (pre ++ d :: post) = true := by
    rw [hasEmbColumn, List.any_eq_true]
    exact ⟨d, List.mem_append_right _ (List.mem_cons_self _ _), by rw [hdemb]; rfl⟩
  have hempty : (pre ++ d :: post).isEmpty = false := by
    cases pre <;> rfl
  have happly := applyCells_first_failure gen e d post hd hfail pre hpre
  simp [generate_and_save_embeddings, hempty, hcol, happly]

/-- Witness for C9: a single null-embedding record with the generator
down aborts the job with the generator's error. -/
theorem embed_sync_generator_failure_witness :
    cellOf docNull = PdCell.null ∧
    genFail (rowText docNull) = .error (.upstream "embedding api down") ∧
    generate_and_save_embeddings genFail [docNull] =
      .error (.upstream "embedding api down") :=
  ⟨rfl, rfl,
   embed_sync_generator_failure genFail (.upstream "embedding api down") [] docNull []
     rfl rfl (fun d' h' => absurd h' (List.not_mem_nil d'))⟩

end MongoChatLLM
